import Mathlib

/-!
Shallow embedding of the nautilus_trader model excerpt: the `OrderListId`
validated identifier (`identifiers/order_list_id.rs`) and the `CryptoFuture`
and `OptionsContract` instrument variants (`instruments/crypto_future.rs`,
`instruments/options_contract.rs`), together with the external value types
(`Currency`, `Price`, `Quantity`, enums) that their fields mention, which are
modelled from the specification because their sources are outside the excerpt.
Machine integers (`u8`, `u64`) are embedded as `Nat`; no arithmetic in this
excerpt can overflow, since fields are only stored and returned. Fallible
Rust code (`anyhow::Result`) becomes `Except String`; a Rust `unwrap` inside
an accessor body becomes the `Option` returned by the underlying factory.
-/

namespace NautilusModel

/-- A control character (the Unicode Cc category, as Rust's
`char::is_control`). -/
def is_control_char (c : Char) : Bool :=
  c.toNat < 32 || (127 ≤ c.toNat && c.toNat ≤ 159)

/-- Modelled from the spec: the "valid string" check of the identifier layer
(its source, `nautilus_core::correctness::check_valid_string`, is outside the
excerpt). Per §3 the value must be non-empty, contain no control characters,
and not be purely whitespace. -/
def check_valid_string (s : String) : Bool :=
  !s.data.isEmpty && s.data.all (fun c => ! is_control_char c) &&
    !s.data.all (fun c => c.isWhitespace)

/-- Represents a valid order list ID. The inner `Ustr` interned string is
modelled by its content (interning deduplicates storage but preserves the
string value observed through `as_str` and `Display`). -/
structure OrderListId where
  value : String
deriving DecidableEq

/-- `OrderListId::new`: validates through `check_valid_string` and interns. -/
def OrderListId.new (value : String) : Except String OrderListId :=
  if check_valid_string value then Except.ok ⟨value⟩
  else Except.error "invalid string: value"

/-- Crate-internal `OrderListId::set_inner`: replaces the inner value with no
validation. -/
def OrderListId.set_inner (_self : OrderListId) (value : String) : OrderListId :=
  ⟨value⟩

/-- `OrderListId::inner`. -/
def OrderListId.inner (self : OrderListId) : String :=
  self.value

/-- `OrderListId::as_str`: the inner identifier value as a string. -/
def OrderListId.as_str (self : OrderListId) : String :=
  self.value

/-- The `Display` implementation: writes the inner `Ustr`, i.e. the value. -/
def OrderListId.display (self : OrderListId) : String :=
  self.value

/-- The `From<&str>` implementation: `Self::new(input).unwrap()`. The panic on
invalid input is modelled by `Option`: `none` is the aborted execution. -/
def OrderListId.from_str (input : String) : Option OrderListId :=
  (OrderListId.new input).toOption

/-- Modelled from the spec: a fixed-precision currency value type (an external
dependency per §2); only its identity is relevant to the excerpt. -/
structure Currency where
  code : String
  precision : Nat
deriving DecidableEq

/-- Modelled from the spec: a fixed-point decimal price carrying a declared
decimal precision (its decimal scale). -/
structure Price where
  raw : Int
  precision : Nat
deriving DecidableEq

/-- Modelled from the spec: a fixed-point decimal quantity carrying a declared
decimal precision; the raw value is scaled to nine decimal places. -/
structure Quantity where
  raw : Nat
  precision : Nat
deriving DecidableEq

/-- Modelled from the spec: the validating quantity factory (`Quantity::new`,
outside the excerpt) rejects a declared precision above the nine-decimal-digit
maximum and otherwise stores the value scaled by ten to the ninth. Only
integer-valued inputs occur in the excerpt, so the value is a `Nat`. -/
def Quantity.new (value : Nat) (precision : Nat) : Option Quantity :=
  if precision ≤ 9 then some ⟨value * 1000000000, precision⟩ else none

/-- The unit quantity: value one at precision zero. -/
def Quantity.one : Quantity :=
  ⟨1000000000, 0⟩

/-- Models `Quantity::from(integer)`, which calls the validating factory at
precision zero and unwraps; the unwrap is kept as the factory's `Option`. -/
def Quantity.from_int (value : Nat) : Option Quantity :=
  Quantity.new value 0

/-- Modelled from the spec: a currency-denominated amount. -/
structure Money where
  raw : Int
  currency : Currency
deriving DecidableEq

/-- A ticker symbol (interned string modelled by its content). -/
structure Symbol where
  value : String
deriving DecidableEq

/-- A venue identifier (interned string modelled by its content). -/
structure Venue where
  value : String
deriving DecidableEq

/-- An instrument identifier: a venue-qualified symbol. -/
structure InstrumentId where
  symbol : Symbol
  venue : Venue
deriving DecidableEq

/-- Nanosecond-resolution epoch instant (`u64`). -/
abbrev UnixNanos := Nat

/-- Modelled from the spec: the enumerated asset classes of §3. -/
inductive AssetClass
  | Cryptocurrency
  | Equity
  | Commodity
  | FixedIncome
  | Index
  | FX
  | Derivative
deriving DecidableEq

/-- Modelled from the spec: the enumerated instrument classes of §3. -/
inductive InstrumentClass
  | Spot
  | Future
  | Option
  | Swap
  | Bond
deriving DecidableEq

/-- Modelled from the spec: the option kind carried by an options contract. -/
inductive OptionKind
  | Call
  | Put
deriving DecidableEq

/-- The `CryptoFuture` record, field for field. -/
structure CryptoFuture where
  id : InstrumentId
  raw_symbol : Symbol
  underlying : Currency
  quote_currency : Currency
  settlement_currency : Currency
  activation_ns : UnixNanos
  expiration_ns : UnixNanos
  price_precision : Nat
  size_precision : Nat
  price_increment : Price
  size_increment : Quantity
  lot_size : Option Quantity
  max_quantity : Option Quantity
  min_quantity : Option Quantity
  max_notional : Option Money
  min_notional : Option Money
  max_price : Option Price
  min_price : Option Price
  ts_event : UnixNanos
  ts_init : UnixNanos
deriving DecidableEq

/-- `CryptoFuture::new`: the factory body is a plain `Ok(Self { .. })` with no
validation of any argument. -/
def CryptoFuture.new (id : InstrumentId) (raw_symbol : Symbol)
    (underlying : Currency) (quote_currency : Currency)
    (settlement_currency : Currency) (activation_ns : UnixNanos)
    (expiration_ns : UnixNanos) (price_precision : Nat) (size_precision : Nat)
    (price_increment : Price) (size_increment : Quantity)
    (lot_size : Option Quantity) (max_quantity : Option Quantity)
    (min_quantity : Option Quantity) (max_notional : Option Money)
    (min_notional : Option Money) (max_price : Option Price)
    (min_price : Option Price) (ts_event : UnixNanos) (ts_init : UnixNanos) :
    Except String CryptoFuture :=
  Except.ok ⟨id, raw_symbol, underlying, quote_currency, settlement_currency,
    activation_ns, expiration_ns, price_precision, size_precision,
    price_increment, size_increment, lot_size, max_quantity, min_quantity,
    max_notional, min_notional, max_price, min_price, ts_event, ts_init⟩

/-- `PartialEq for CryptoFuture`: equality compares only `id`. -/
def CryptoFuture.beq (a b : CryptoFuture) : Bool :=
  decide (a.id = b.id)

/-- `Hash for CryptoFuture`: only `id` is fed to the hasher, so the hash value
is a function `h` of the id alone, for every hasher `h`. -/
def CryptoFuture.hash_with (h : InstrumentId → Nat) (a : CryptoFuture) : Nat :=
  h a.id

/-- Trait accessor `asset_class`: fixed `AssetClass::Cryptocurrency`. -/
def CryptoFuture.asset_class (_self : CryptoFuture) : AssetClass :=
  AssetClass.Cryptocurrency

/-- Trait accessor `instrument_class`: fixed `InstrumentClass::Future`. -/
def CryptoFuture.instrument_class (_self : CryptoFuture) : InstrumentClass :=
  InstrumentClass.Future

/-- Trait accessor `base_currency`: always `None`. -/
def CryptoFuture.base_currency (_self : CryptoFuture) : Option Currency :=
  none

/-- Trait accessor `is_inverse`: fixed `false`. -/
def CryptoFuture.is_inverse (_self : CryptoFuture) : Bool :=
  false

/-- Trait accessor `multiplier`: the body is `Quantity::new(1.0, 0).unwrap()`;
the unwrap is modelled as the `Option` the validating factory returns. -/
def CryptoFuture.multiplier (_self : CryptoFuture) : Option Quantity :=
  Quantity.new 1 0

/-- Replaces only the `underlying` field, leaving every other field intact;
used to state that no trait accessor observes `underlying`. -/
def CryptoFuture.with_underlying (self : CryptoFuture) (u : Currency) :
    CryptoFuture :=
  { self with underlying := u }

/-- The full tuple of `Instrument` trait accessor results for a `CryptoFuture`
(accessors coincident with field projections are the projections). -/
def CryptoFuture.observation (c : CryptoFuture) :=
  (c.id, c.raw_symbol, c.asset_class, c.instrument_class, c.quote_currency,
    c.base_currency, c.settlement_currency, c.is_inverse, c.price_precision,
    c.size_precision, c.price_increment, c.size_increment, c.multiplier,
    c.lot_size, c.max_quantity, c.min_quantity, c.max_price, c.min_price,
    c.ts_event, c.ts_init)

/-- The `OptionsContract` record, field for field. -/
structure OptionsContract where
  id : InstrumentId
  raw_symbol : Symbol
  asset_class : AssetClass
  underlying : String
  option_kind : OptionKind
  activation_ns : UnixNanos
  expiration_ns : UnixNanos
  strike_price : Price
  currency : Currency
  price_precision : Nat
  price_increment : Price
  multiplier : Quantity
  lot_size : Quantity
  max_quantity : Option Quantity
  min_quantity : Option Quantity
  max_price : Option Price
  min_price : Option Price
  ts_event : UnixNanos
  ts_init : UnixNanos
deriving DecidableEq

/-- `OptionsContract::new`: the factory body is a plain `Ok(Self { .. })` with
no validation of any argument. -/
def OptionsContract.new (id : InstrumentId) (raw_symbol : Symbol)
    (asset_class : AssetClass) (underlying : String)
    (option_kind : OptionKind) (activation_ns : UnixNanos)
    (expiration_ns : UnixNanos) (strike_price : Price) (currency : Currency)
    (price_precision : Nat) (price_increment : Price) (multiplier : Quantity)
    (lot_size : Quantity) (max_quantity : Option Quantity)
    (min_quantity : Option Quantity) (max_price : Option Price)
    (min_price : Option Price) (ts_event : UnixNanos) (ts_init : UnixNanos) :
    Except String OptionsContract :=
  Except.ok ⟨id, raw_symbol, asset_class, underlying, option_kind,
    activation_ns, expiration_ns, strike_price, currency, price_precision,
    price_increment, multiplier, lot_size, max_quantity, min_quantity,
    max_price, min_price, ts_event, ts_init⟩

/-- `PartialEq for OptionsContract`: equality compares only `id`. -/
def OptionsContract.beq (a b : OptionsContract) : Bool :=
  decide (a.id = b.id)

/-- `Hash for OptionsContract`: only `id` is fed to the hasher. -/
def OptionsContract.hash_with (h : InstrumentId → Nat) (a : OptionsContract) :
    Nat :=
  h a.id

/-- Trait accessor `instrument_class`: fixed `InstrumentClass::Option`. -/
def OptionsContract.instrument_class (_self : OptionsContract) :
    InstrumentClass :=
  InstrumentClass.Option

/-- Trait accessor `quote_currency`: returns the single `currency` field. -/
def OptionsContract.quote_currency (self : OptionsContract) : Currency :=
  self.currency

/-- Trait accessor `base_currency`: always `None`. -/
def OptionsContract.base_currency (_self : OptionsContract) :
    Option Currency :=
  none

/-- Trait accessor `settlement_currency`: returns the single `currency`
field. -/
def OptionsContract.settlement_currency (self : OptionsContract) : Currency :=
  self.currency

/-- Trait accessor `is_inverse`: fixed `false`. -/
def OptionsContract.is_inverse (_self : OptionsContract) : Bool :=
  false

/-- Trait accessor `size_precision`: fixed `0`. -/
def OptionsContract.size_precision (_self : OptionsContract) : Nat :=
  0

/-- Trait accessor `size_increment`: the body is `Quantity::from(1)`, whose
internal unwrap is modelled as the factory's `Option`. -/
def OptionsContract.size_increment (_self : OptionsContract) :
    Option Quantity :=
  Quantity.from_int 1

/-- Trait accessor `lot_size` (named apart from the record projection, which
Lean reserves): returns `Some(self.lot_size)`. -/
def OptionsContract.lot_size_acc (self : OptionsContract) : Option Quantity :=
  some self.lot_size

/-- A sample currency (United States dollar). -/
def usd : Currency :=
  ⟨"USD", 2⟩

/-- A sample currency (Bitcoin). -/
def btc : Currency :=
  ⟨"BTC", 8⟩

/-- A sample instrument identifier. -/
def iid1 : InstrumentId :=
  ⟨⟨"BTCUSDT"⟩, ⟨"BINANCE"⟩⟩

/-- A second, distinct sample instrument identifier. -/
def iid2 : InstrumentId :=
  ⟨⟨"ETHUSDT"⟩, ⟨"BINANCE"⟩⟩

/-- A sample symbol. -/
def sym1 : Symbol :=
  ⟨"BTCUSDT"⟩

/-- A sample crypto future. -/
def cf1 : CryptoFuture :=
  ⟨iid1, sym1, btc, usd, usd, 0, 100, 2, 6, ⟨1, 2⟩, ⟨1000, 6⟩, none, none,
    none, none, none, none, none, 0, 0⟩

/-- The sample crypto future with the same id but a different price
increment. -/
def cf1b : CryptoFuture :=
  { cf1 with price_increment := ⟨5, 2⟩ }

/-- The sample crypto future with a different id and all other fields
identical. -/
def cf2 : CryptoFuture :=
  { cf1 with id := iid2 }

/-- A sample options contract (strike 150.00, price precision 2). -/
def oc1 : OptionsContract :=
  ⟨iid1, sym1, AssetClass.Equity, "AAPL", OptionKind.Call, 0, 100, ⟨15000, 2⟩,
    usd, 2, ⟨1, 2⟩, Quantity.one, Quantity.one, none, none, none, none, 0, 0⟩

/-- The sample options contract with the same id but a different strike. -/
def oc1b : OptionsContract :=
  { oc1 with strike_price := ⟨16000, 2⟩ }

/-- A sample hasher over instrument identifiers. -/
def sample_hasher (i : InstrumentId) : Nat :=
  i.symbol.value.length + 2 * i.venue.value.length

/-- C1 counterexample: the claim states that a factory input whose increment
decimal scale exceeds the declared precision is rejected as an error, and that
no returned instance violates scale ≤ precision. At the concrete inputs below
(price precision 0 with a price increment of scale 2), both `CryptoFuture.new`
and `OptionsContract.new` return `ok`, and the returned instance has an
increment scale strictly above the declared precision. -/
theorem C1_counterexample :
    (CryptoFuture.new iid1 sym1 btc usd usd 0 100 0 0 ⟨1, 2⟩ Quantity.one none
        none none none none none none 0 0).map
      (fun c => decide (c.price_increment.precision ≤ c.price_precision))
      = Except.ok false
    ∧ (OptionsContract.new iid1 sym1 AssetClass.Equity "AAPL" OptionKind.Call
        0 100 ⟨15000, 2⟩ usd 0 ⟨1, 2⟩ Quantity.one Quantity.one none none none
        none 0 0).map
      (fun c => decide (c.price_increment.precision ≤ c.price_precision))
      = Except.ok false :=
  ⟨rfl, rfl⟩

/-- C1 (amended): the variant factories `CryptoFuture::new` and
`OptionsContract::new` always succeed — for every input they return `ok` with
all fields stored verbatim; no precision/increment consistency check is
performed, so the increment's decimal scale in a returned instance may exceed
the declared precision. -/
theorem C1_amended (id : InstrumentId) (rs : Symbol) (und qc sc : Currency)
    (act exp : UnixNanos) (pp sp : Nat) (pinc : Price) (sinc : Quantity)
    (ls mq nq : Option Quantity) (mn nn : Option Money) (mp np : Option Price)
    (te ti : UnixNanos) (id2 : InstrumentId) (rs2 : Symbol) (ac2 : AssetClass)
    (und2 : String) (okd2 : OptionKind) (act2 exp2 : UnixNanos)
    (strike2 : Price) (cur2 : Currency) (pp2 : Nat) (pinc2 : Price)
    (mult2 lots2 : Quantity) (mq2 nq2 : Option Quantity)
    (mp2 np2 : Option Price) (te2 ti2 : UnixNanos) :
    CryptoFuture.new id rs und qc sc act exp pp sp pinc sinc ls mq nq mn nn
      mp np te ti
      = Except.ok ⟨id, rs, und, qc, sc, act, exp, pp, sp, pinc, sinc, ls, mq,
        nq, mn, nn, mp, np, te, ti⟩
    ∧ OptionsContract.new id2 rs2 ac2 und2 okd2 act2 exp2 strike2 cur2 pp2
      pinc2 mult2 lots2 mq2 nq2 mp2 np2 te2 ti2
      = Except.ok ⟨id2, rs2, ac2, und2, okd2, act2, exp2, strike2, cur2, pp2,
        pinc2, mult2, lots2, mq2, nq2, mp2, np2, te2, ti2⟩ :=
  ⟨rfl, rfl⟩

/-- C2: for each variant, equality holds iff the `id` fields are equal — so
instances sharing an id compare equal whatever their other fields, instances
with different ids never compare equal — and equal instances produce
identical hash values under every hasher, because only the id is hashed. -/
theorem C2_eq_by_id (a b : CryptoFuture) (p q : OptionsContract)
    (h : InstrumentId → Nat) :
    (CryptoFuture.beq a b = true ↔ a.id = b.id)
    ∧ (CryptoFuture.beq a b = true →
      CryptoFuture.hash_with h a = CryptoFuture.hash_with h b)
    ∧ (OptionsContract.beq p q = true ↔ p.id = q.id)
    ∧ (OptionsContract.beq p q = true →
      OptionsContract.hash_with h p = OptionsContract.hash_with h q) := by
  refine ⟨by simp [CryptoFuture.beq], ?_, by simp [OptionsContract.beq], ?_⟩
  · intro hab
    simp only [CryptoFuture.beq, decide_eq_true_eq] at hab
    simp [CryptoFuture.hash_with, hab]
  · intro hpq
    simp only [OptionsContract.beq, decide_eq_true_eq] at hpq
    simp [OptionsContract.hash_with, hpq]

/-- C2 witness: two crypto futures sharing an id but differing in price
increment, and two options contracts sharing an id but differing in strike,
hash identically under the sample hasher. -/
theorem C2_witness :
    CryptoFuture.hash_with sample_hasher cf1
      = CryptoFuture.hash_with sample_hasher cf1b
    ∧ OptionsContract.hash_with sample_hasher oc1
      = OptionsContract.hash_with sample_hasher oc1b :=
  ⟨(C2_eq_by_id cf1 cf1b oc1 oc1b sample_hasher).2.1 (by rfl),
    (C2_eq_by_id cf1 cf1b oc1 oc1b sample_hasher).2.2.2 (by rfl)⟩

/-- C3: every options contract reports size precision 0, the unit quantity as
size increment, a present lot size; and on an instance built by the factory,
the price precision and multiplier accessors return the caller-supplied
arguments unchanged. -/
theorem C3_options_accessor_values (c : OptionsContract) (id : InstrumentId)
    (rs : Symbol) (ac : AssetClass) (und : String) (okd : OptionKind)
    (act exp : UnixNanos) (strike : Price) (cur : Currency) (pp : Nat)
    (pinc : Price) (mult lots : Quantity) (mq nq : Option Quantity)
    (mp np : Option Price) (te ti : UnixNanos) :
    OptionsContract.size_precision c = 0
    ∧ OptionsContract.size_increment c = some Quantity.one
    ∧ (OptionsContract.lot_size_acc c).isSome = true
    ∧ (OptionsContract.new id rs ac und okd act exp strike cur pp pinc mult
        lots mq nq mp np te ti).map OptionsContract.price_precision
      = Except.ok pp
    ∧ (OptionsContract.new id rs ac und okd act exp strike cur pp pinc mult
        lots mq nq mp np te ti).map OptionsContract.multiplier
      = Except.ok mult :=
  ⟨rfl, rfl, rfl, rfl, rfl⟩

/-- C4: every crypto future reports the fixed multiplier one (the embedded
unwrap succeeding with the unit quantity), is never inverse, and is classified
as a cryptocurrency future. -/
theorem C4_crypto_future_fixed (c : CryptoFuture) :
    CryptoFuture.multiplier c = some Quantity.one
    ∧ CryptoFuture.is_inverse c = false
    ∧ CryptoFuture.asset_class c = AssetClass.Cryptocurrency
    ∧ CryptoFuture.instrument_class c = InstrumentClass.Future :=
  ⟨rfl, rfl, rfl, rfl⟩

/-- C5: for every string passing the valid-string check, `OrderListId::new`
succeeds, and the resulting identifier's `as_str` and `Display` output are
exactly the input string. -/
theorem C5_create_roundtrip (s : String) (h : check_valid_string s = true) :
    OrderListId.new s = Except.ok ⟨s⟩
    ∧ (OrderListId.new s).map OrderListId.as_str = Except.ok s
    ∧ (OrderListId.new s).map OrderListId.display = Except.ok s := by
  simp [OrderListId.new, h, OrderListId.as_str, OrderListId.display,
    Except.map]

/-- C5 witness: constructing from "001" yields `as_str` and display output
"001". -/
theorem C5_create_roundtrip_witness :
    check_valid_string "001" = true
    ∧ (OrderListId.new "001" = Except.ok ⟨"001"⟩
      ∧ (OrderListId.new "001").map OrderListId.as_str = Except.ok "001"
      ∧ (OrderListId.new "001").map OrderListId.display = Except.ok "001") :=
  ⟨by rfl, C5_create_roundtrip "001" (by rfl)⟩

/-- C6: for every string failing the valid-string check (empty or malformed),
`OrderListId::new` returns a validation failure and no identifier is
produced. -/
theorem C6_invalid_rejected (s : String) (h : check_valid_string s = false) :
    OrderListId.new s = Except.error "invalid string: value" := by
  simp [OrderListId.new, h]

/-- C6 witness: the empty string fails the check and is rejected. -/
theorem C6_invalid_rejected_witness :
    check_valid_string "" = false
    ∧ OrderListId.new "" = Except.error "invalid string: value" :=
  ⟨by rfl, C6_invalid_rejected "" (by rfl)⟩

/-- C7: every options contract settles in its quote currency — both accessors
return the single caller-supplied `currency` field. -/
theorem C7_settlement_equals_quote (c : OptionsContract) :
    OptionsContract.settlement_currency c = OptionsContract.quote_currency c
    ∧ OptionsContract.quote_currency c = c.currency :=
  ⟨rfl, rfl⟩

/-- C8: the abort-on-failure entry points never abort under their documented
preconditions — for every string passing the valid-string check, the
`From<&str>` conversion succeeds and yields the identifier `new` returns, and
for every crypto future the unwrap inside `multiplier` succeeds. -/
theorem C8_abort_free (s : String) (h : check_valid_string s = true)
    (c : CryptoFuture) :
    OrderListId.from_str s = some ⟨s⟩
    ∧ OrderListId.new s = Except.ok ⟨s⟩
    ∧ (CryptoFuture.multiplier c).isSome = true := by
  refine ⟨?_, ?_, rfl⟩ <;>
    simp [OrderListId.from_str, OrderListId.new, h, Except.toOption]

/-- C8 witness: the conversion from "001" succeeds and the sample crypto
future's multiplier unwrap succeeds. -/
theorem C8_abort_free_witness :
    OrderListId.from_str "001" = some ⟨"001"⟩
    ∧ OrderListId.new "001" = Except.ok ⟨"001"⟩
    ∧ (CryptoFuture.multiplier cf1).isSome = true :=
  C8_abort_free "001" (by rfl) cf1

/-- C9: the crate-internal mutator `set_inner` performs no validation: for
every replacement string — the empty string included — it succeeds and a
subsequent `as_str` returns exactly that string, so the factory's
well-formedness invariant is not enforced by this operation (the empty
replacement leaves a value failing the valid-string check). -/
theorem C9_set_inner_unvalidated (o : OrderListId) (v : String) :
    OrderListId.as_str (OrderListId.set_inner o v) = v
    ∧ check_valid_string (OrderListId.as_str (OrderListId.set_inner o ""))
      = false :=
  ⟨rfl, by rfl⟩

/-- C10: every crypto future's `base_currency` accessor returns `none`, and
the stored `underlying` currency is unobservable through the capability
contract: replacing it changes no trait accessor result. -/
theorem C10_underlying_unobservable (c : CryptoFuture) (u : Currency) :
    CryptoFuture.base_currency c = none
    ∧ CryptoFuture.observation (CryptoFuture.with_underlying c u)
      = CryptoFuture.observation c :=
  ⟨rfl, rfl⟩

end NautilusModel
